import Mathlib

/-!
Shallow embedding of the qutebrowser application shell
(`qutebrowser/app.py`, `qutebrowser/models/downloadmodel.py`,
`qutebrowser/widgets/mainwindow.py`) and proofs about its
lifecycle, shutdown, crash-recovery and adapter behaviour.

State that in the Python source lives on the `Application` singleton,
in the object registry or on the filesystem is made explicit as record
types; each Python method relevant to a claim becomes a Lean function
on those records, translated branch by branch from the source.
-/

namespace Qutebrowser

/-! ### Qt item flags (`Qt.ItemFlag` numeric values) -/

/-- `Qt.ItemIsSelectable` (value 1 in the Qt enum). -/
def QtItemIsSelectable : Nat := 1

/-- `Qt.ItemIsEditable` (value 2 in the Qt enum). -/
def QtItemIsEditable : Nat := 2

/-- `Qt.ItemIsEnabled` (value 32 in the Qt enum). -/
def QtItemIsEnabled : Nat := 32

/-! ### `models/downloadmodel.py` — `DownloadModel`

The model is a read-through adapter over the download manager held in
the object registry under key `download-manager`.  The registry entry
is modelled as an `Option DownloadManager` (absent = `KeyError` on
`objreg.get`); a download item is abstract (only its display text and
identity matter here). -/

/-- A download item as the model sees it: we only need a display string. -/
structure DownloadItem where
  display : String
  deriving Repr, DecidableEq

/-- `downloads.DownloadManager`, reduced to the `downloads` list the
model reads. -/
structure DownloadManager where
  downloads : List DownloadItem
  deriving Repr, DecidableEq

/-- A `QModelIndex`, reduced to what `rowCount`/`flags` inspect:
whether `parent.isValid()` holds, and the row/column (kept so that the
statements can quantify over whole indices). -/
structure QModelIndex where
  parentValid : Bool
  row : Nat
  column : Nat
  deriving Repr, DecidableEq

/-- `DownloadModel.rowCount`: translated from the source —
`if parent.isValid(): return 0`; then `objreg.get('download-manager')`
with `except KeyError: return 0`; else `len(download_manager.downloads)`. -/
def DownloadModel.rowCount (registry : Option DownloadManager)
    (parent : QModelIndex) : Nat :=
  if parent.parentValid then 0
  else
    match registry with
    | none => 0
    | some download_manager => download_manager.downloads.length

/-- `DownloadModel.flags`: the source ignores its index argument and
returns `Qt.ItemIsEnabled`. -/
def DownloadModel.flags (_index : QModelIndex) : Nat :=
  QtItemIsEnabled

/-! ### `app.py` — signal handling escalation
(`interrupt`, `interrupt_forcefully`, `interrupt_really_forcefully`)

The three handlers form an escalation ladder.  Each delivery of
SIGINT/SIGTERM runs whichever handler is currently installed for that
signal; handlers remap *both* signals and schedule work on the Qt run
loop with `QTimer.singleShot(0, ...)`.  The run-loop queue is explicit,
and `sys.exit` is modelled by an `exited` field. -/

/-- POSIX signal number of SIGINT. -/
def SIGINT : Nat := 2

/-- POSIX signal number of SIGTERM. -/
def SIGTERM : Nat := 15

/-- Which handler is installed for a signal: `interrupt` (graceful),
`interrupt_forcefully`, or `interrupt_really_forcefully`. -/
inductive Handler where
  | interrupt
  | forcefully
  | reallyForcefully
  deriving Repr, DecidableEq

/-- An action scheduled on the Qt run loop by a signal handler:
`QTimer.singleShot(0, functools.partial(self.shutdown, 128 + signum))`
or `QTimer.singleShot(0, functools.partial(self.exit, 128 + signum))`. -/
inductive SigAction where
  | gracefulShutdown (status : Nat)
  | forcedExit (status : Nat)
  deriving Repr, DecidableEq

/-- Signal-handling state: the handler installed for each of the two
signals, the run-loop queue, and whether `sys.exit` has been called
(with which status). -/
structure SigState where
  sigint : Handler
  sigterm : Handler
  scheduled : List SigAction
  exited : Option Nat
  deriving Repr, DecidableEq

/-- State right after `_python_hacks` installed `self.interrupt` for
SIGINT and SIGTERM. -/
def initSigState : SigState :=
  { sigint := .interrupt, sigterm := .interrupt,
    scheduled := [], exited := none }

/-- `Application.interrupt`: remaps both signals to
`interrupt_forcefully` and schedules `shutdown(128 + signum)` on the
next run-loop tick. -/
def Application.interrupt (signum : Nat) (s : SigState) : SigState :=
  { s with sigint := .forcefully, sigterm := .forcefully,
           scheduled := s.scheduled ++ [.gracefulShutdown (128 + signum)] }

/-- `Application.interrupt_forcefully`: remaps both signals to
`interrupt_really_forcefully` and schedules `QApplication.exit(128 +
signum)` on the next run-loop tick (skipping the shutdown routine). -/
def Application.interrupt_forcefully (signum : Nat) (s : SigState) : SigState :=
  { s with sigint := .reallyForcefully, sigterm := .reallyForcefully,
           scheduled := s.scheduled ++ [.forcedExit (128 + signum)] }

/-- `Application.interrupt_really_forcefully`: `sys.exit(128 + signum)`
immediately, touching neither the handlers nor the run-loop queue. -/
def Application.interrupt_really_forcefully (signum : Nat) (s : SigState) :
    SigState :=
  { s with exited := some (128 + signum) }

/-- The handler currently installed for signal `signum` (SIGINT or
SIGTERM; any other number has the OS default and is out of scope, so we
treat it as whatever `sigterm` holds only for the two real signals via
the callers' hypotheses). -/
def installedHandler (signum : Nat) (s : SigState) : Handler :=
  if signum = SIGINT then s.sigint else s.sigterm

/-- Delivery of signal `signum`: the OS runs whichever handler is
installed for it. -/
def deliverSignal (signum : Nat) (s : SigState) : SigState :=
  match installedHandler signum s with
  | .interrupt => Application.interrupt signum s
  | .forcefully => Application.interrupt_forcefully signum s
  | .reallyForcefully => Application.interrupt_really_forcefully signum s

/-! ### `app.py` — two-stage shutdown latch (`shutdown`)

`shutdown(status)` is Stage 1: it is guarded by `self._shutting_down`,
and either runs `self._shutdown(status)` (Stage 2) inline, or — when
`objreg.get('prompter', None)` finds a prompter whose `shutdown()`
reports an active question — defers Stage 2 to the next run-loop
iteration via `QTimer.singleShot(0, ...)`.  Stage 2 itself is opaque
here: we count its executions and record deferred entries. -/

/-- The portion of application/run-loop state that `shutdown` touches.
`prompterRegistered` models whether `objreg.get('prompter', None)`
finds a prompter; `promptActive` models the return value of
`prompter.shutdown()` (True when a modal question was being asked).
`deferred` is the run-loop queue of pending `_shutdown(status)` calls;
`stage2Runs` counts completed inline executions of `_shutdown`. -/
structure ShutdownState where
  shuttingDown : Bool
  prompterRegistered : Bool
  promptActive : Bool
  deferred : List Nat
  stage2Runs : Nat
  deriving Repr, DecidableEq

/-- `Application.shutdown(status)`: return immediately if the
`_shutting_down` latch is set; otherwise set it, and either defer
`_shutdown(status)` to the next run-loop iteration (question active) or
run it inline. -/
def Application.shutdown (status : Nat) (s : ShutdownState) : ShutdownState :=
  if s.shuttingDown then s
  else
    let s := { s with shuttingDown := true }
    if s.prompterRegistered && s.promptActive then
      { s with deferred := s.deferred ++ [status] }
    else
      { s with stage2Runs := s.stage2Runs + 1 }

/-- Total Stage-2 executions a state accounts for: completed runs plus
deferred run-loop entries (each deferred entry runs `_shutdown` exactly
once when the loop drains it, as `_shutdown` has no guard of its own). -/
def stage2Total (s : ShutdownState) : Nat :=
  s.stage2Runs + s.deferred.length

/-- Applying a whole sequence of `shutdown` calls, first to last. -/
def applyShutdowns (calls : List Nat) (s : ShutdownState) : ShutdownState :=
  calls.foldl (fun t status => Application.shutdown status t) s

/-! ### `app.py` — Stage 2 of shutdown (`_shutdown`), persistence loop

`_shutdown` builds a `to_save` list of `(label, handler)` pairs whose
contents depend on which objects the registry holds and on the
`auto-save-config` setting, then calls each handler in turn inside
`try: handler() except AttributeError`.  Only `AttributeError` is
caught; any other exception propagates out of `_shutdown`, skipping
the remaining handlers and everything after the loop (crash-log
cleanup, message-handler removal, registry clear, and the deferred
`QApplication.exit`). -/

/-- A Python exception as far as the Stage-2 save loop can tell:
either an `AttributeError` (the class its `except` clause names) or
anything else. -/
inductive PyExc where
  | attributeError
  | otherError
  deriving Repr, DecidableEq

/-- What calling one save handler does: `none` = returns normally,
`some e` = raises `e`. -/
abbrev SaveOutcome := Option PyExc

/-- The registry contents and handler behaviours `_shutdown` consults:
which keys `objreg.get` finds, the `general → auto-save-config`
setting, and each handler's outcome when called. -/
structure Stage2Env where
  configRegistered : Bool
  autoSaveConfig : Bool
  keyConfigRegistered : Bool
  commandHistoryRegistered : Bool
  stateConfigRegistered : Bool
  cookieJarRegistered : Bool
  configSave : SaveOutcome
  keyConfigSave : SaveOutcome
  saveGeometry : SaveOutcome
  quickmarksSave : SaveOutcome
  commandHistorySave : SaveOutcome
  stateConfigSave : SaveOutcome
  cookieJarSave : SaveOutcome
  deriving Repr, DecidableEq

/-- The `to_save` list exactly as `_shutdown` builds it (note the
source labels the `state_config.save` entry "window geometry" as
well). -/
def toSave (e : Stage2Env) : List (String × SaveOutcome) :=
  (if e.autoSaveConfig then
    [("config", e.configSave)] ++
      (if e.keyConfigRegistered then [("keyconfig", e.keyConfigSave)] else [])
  else []) ++
  [("window geometry", e.saveGeometry), ("quickmarks", e.quickmarksSave)] ++
  (if e.commandHistoryRegistered then
    [("command history", e.commandHistorySave)] else []) ++
  (if e.stateConfigRegistered then
    [("window geometry", e.stateConfigSave)] else []) ++
  (if e.cookieJarRegistered then [("cookies", e.cookieJarSave)] else [])

/-- Result of running the `for what, handler in to_save:` loop:
which handlers were invoked, which failures were caught and logged
(`AttributeError` only), and the exception propagating out of the
loop, if any. -/
structure SaveLoopResult where
  attempted : List String
  loggedFailures : List String
  raised : Option PyExc
  deriving Repr, DecidableEq

/-- The save loop itself: each handler runs in order; an
`AttributeError` is logged and the loop continues; any other exception
aborts the loop and propagates. -/
def runSaveLoop : List (String × SaveOutcome) → SaveLoopResult
  | [] => { attempted := [], loggedFailures := [], raised := none }
  | (what, outcome) :: rest =>
    match outcome with
    | none =>
      let r := runSaveLoop rest
      { r with attempted := what :: r.attempted }
    | some PyExc.attributeError =>
      let r := runSaveLoop rest
      { attempted := what :: r.attempted,
        loggedFailures := what :: r.loggedFailures, raised := r.raised }
    | some PyExc.otherError =>
      { attempted := [what], loggedFailures := [], raised := some .otherError }

/-- Observable effects of `_shutdown(status)` from the save section
onwards.  `exitScheduled` is the status passed to the deferred
`QTimer.singleShot(0, functools.partial(self.exit, status))`, reached
only if no exception escaped the save loop. -/
structure Stage2Result where
  saves : SaveLoopResult
  crashlogDestroyed : Bool
  messageHandlerRemoved : Bool
  registryCleared : Bool
  exitScheduled : Option Nat
  raised : Option PyExc
  deriving Repr, DecidableEq

/-- `Application._shutdown(status)`, persistence section onwards: when
the `config` registry entry is missing nothing is saved; otherwise the
`to_save` loop runs, and only if it finishes without an uncaught
exception do crash-log cleanup, message-handler removal, registry
clearing and the deferred exit happen. -/
def Application._shutdown (status : Nat) (e : Stage2Env) : Stage2Result :=
  let saves :=
    if e.configRegistered then runSaveLoop (toSave e)
    else { attempted := [], loggedFailures := [], raised := none }
  match saves.raised with
  | some exc =>
    { saves := saves, crashlogDestroyed := false,
      messageHandlerRemoved := false, registryCleared := false,
      exitScheduled := none, raised := some exc }
  | none =>
    { saves := saves, crashlogDestroyed := true,
      messageHandlerRemoved := true, registryCleared := true,
      exitScheduled := some status, raised := none }

/-! ### `app.py` — crash marker handling
(`_handle_segfault`, `_init_crashlogfile`, `_destroy_crashlogfile`)

The crash marker is `crash.log` in the data directory.  Its state is
an `Option String` (`none` = absent, `some data` = present with that
content, `some ""` = present and empty).  `removeOk` models whether
`os.remove` succeeds (`false` = raises `PermissionError`). -/

/-- Filesystem-visible events `_handle_segfault` can perform on the
marker, in order. -/
inductive MarkerEvent where
  | removed
  | created
  | warned
  | dialogShown (data : String)
  deriving Repr, DecidableEq

/-- Outcome of `_handle_segfault`: the marker file afterwards, whether
a crash-log handle is open (`self._crashlogfile is not None`), whether
`faulthandler.enable` now targets that file, the crash dialog's
content if one was shown, and the ordered event trace. -/
structure SegfaultResult where
  marker : Option String
  crashlogOpen : Bool
  faultCaptureEnabled : Bool
  crashdlg : Option String
  events : List MarkerEvent
  deriving Repr, DecidableEq

/-- `Application._handle_segfault`, translated branch by branch:
`os.path.exists` → the `match`; `if data:` → the inner `if`;
`os.remove` failing with `PermissionError` → `removeOk = false` (then
`_init_crashlogfile` is skipped but the dialog still shows);
`_init_crashlogfile` opens the file with mode `w` (fresh empty marker)
and redirects `faulthandler` to it. -/
def Application._handle_segfault (marker : Option String) (removeOk : Bool) :
    SegfaultResult :=
  match marker with
  | some data =>
    if data ≠ "" then
      if removeOk then
        { marker := some "", crashlogOpen := true,
          faultCaptureEnabled := true, crashdlg := some data,
          events := [.removed, .created, .dialogShown data] }
      else
        { marker := some data, crashlogOpen := false,
          faultCaptureEnabled := false, crashdlg := some data,
          events := [.warned, .dialogShown data] }
    else
      { marker := some data, crashlogOpen := false,
        faultCaptureEnabled := false, crashdlg := none,
        events := [.warned] }
  | none =>
    { marker := some "", crashlogOpen := true,
      faultCaptureEnabled := true, crashdlg := none,
      events := [.created] }

/-- Where `faulthandler` currently writes. -/
inductive FaultTarget where
  | file (name : String)
  | stderr
  | disabled
  deriving Repr, DecidableEq

/-- The application/filesystem state `_destroy_crashlogfile` touches:
the open crash-log handle (by file name), the set of files on disk,
the faulthandler target, whether `sys.__stderr__` is available, and
whether `os.remove` would succeed. -/
structure CrashlogState where
  crashlogfile : Option String
  diskFiles : List String
  faultTarget : FaultTarget
  stderrAvailable : Bool
  removeOk : Bool
  deriving Repr, DecidableEq

/-- `Application._destroy_crashlogfile`: returns immediately when no
handle is open; otherwise re-targets `faulthandler` to `sys.__stderr__`
(or disables it), closes the handle, and removes the file, tolerating
`PermissionError`/`FileNotFoundError`. -/
def Application._destroy_crashlogfile (s : CrashlogState) : CrashlogState :=
  match s.crashlogfile with
  | none => s
  | some name =>
    let s1 := { s with
      faultTarget := if s.stderrAvailable then .stderr else .disabled,
      crashlogfile := none }
    if s.removeOk then { s1 with diskFiles := s1.diskFiles.erase name }
    else s1

/-! ### `app.py` — restart command construction (`restart`) -/

/-- `os.path.basename`: the final path component (everything after the
last `/`). -/
def basename (p : String) : String :=
  String.mk ((p.data.reverse.takeWhile (fun c => c ≠ '/')).reverse)

/-- `arg.startswith('-')`, the test `restart` applies to each original
argument after `argv[0]`. -/
def startsWithDash (arg : String) : Bool :=
  match arg.data with
  | [] => false
  | c :: _ => c = '-'

/-- How the running process was launched: `sys.argv` (split into the
always-present `argv[0]` and the rest), `sys.executable`, and whether
`sys.frozen` exists (frozen/packaged executable). -/
structure LaunchEnv where
  argv0 : String
  argvRest : List String
  executable : String
  frozen : Bool
  deriving Repr, DecidableEq

/-- The working directory handed to `subprocess.Popen`: `none` in the
source means the child inherits the original working directory;
otherwise it is the directory inferred from the packaging
(`abspath(dirname(sys.executable))`, or the parent of the package
directory). -/
inductive Cwd where
  | original
  | executableDir
  | packageParent
  deriving Repr, DecidableEq

/-- The command line and working directory `Application.restart`
passes to `subprocess.Popen`: the re-derived launch vector (launcher
script / frozen executable / `python -m qutebrowser`), then every
original argument after `argv[0]` that starts with `-`, then the open
pages. -/
def Application.restart_cmd (env : LaunchEnv) (pages : List String) :
    List String × Cwd :=
  let (args, cwd) :=
    if basename env.argv0 = "qutebrowser" then
      ([env.argv0], Cwd.original)
    else if env.frozen then
      ([env.executable], Cwd.executableDir)
    else
      ([env.executable, "-m", "qutebrowser"], Cwd.packageParent)
  (args ++ env.argvRest.filter startsWithDash ++ pages, cwd)

/-! ### `widgets/mainwindow.py` — geometry restore

`MainWindow.__init__` reads `state_config['geometry']['mainwindow']`
(`KeyError` when absent), base64-decodes it with `validate=True`
(`binascii.Error` on malformed input), and calls `restoreGeometry`;
every failure path falls back to `_set_default_geometry`. -/

/-- Value of a character in the standard base64 alphabet, `none` for
anything outside it. -/
def b64charVal (c : Char) : Option Nat :=
  if 'A' ≤ c ∧ c ≤ 'Z' then some (c.toNat - 65)
  else if 'a' ≤ c ∧ c ≤ 'z' then some (c.toNat - 97 + 26)
  else if '0' ≤ c ∧ c ≤ '9' then some (c.toNat - 48 + 52)
  else if c = '+' then some 62
  else if c = '/' then some 63
  else none

/-- Base64 decoding of a character list, quad by quad: the input must
consist of four-character groups over the standard alphabet, with `=`
padding only at the very end (`base64.b64decode(..., validate=True)`
raises `binascii.Error`, here `none`, otherwise). -/
def decodeB64Quads : List Char → Option (List Nat)
  | [] => some []
  | a :: b :: c :: d :: rest =>
    match b64charVal a, b64charVal b with
    | some va, some vb =>
      if c = '=' then
        if d = '=' ∧ rest = [] then some [va * 4 + vb / 16]
        else none
      else
        match b64charVal c with
        | some vc =>
          if d = '=' then
            if rest = [] then
              some [va * 4 + vb / 16, (vb % 16) * 16 + vc / 4]
            else none
          else
            match b64charVal d with
            | some vd =>
              (decodeB64Quads rest).map (fun tl =>
                (va * 4 + vb / 16) :: ((vb % 16) * 16 + vc / 4) ::
                  ((vc % 4) * 64 + vd) :: tl)
            | none => none
        | none => none
    | _, _ => none
  | _ => none

/-- `base64.b64decode(data, validate=True)`: `some` decoded bytes, or
`none` for the `binascii.Error` cases. -/
def b64decode (s : String) : Option (List Nat) :=
  decodeB64Quads s.data

/-- A `QRect` as used for window geometry. -/
structure QRect where
  x : Int
  y : Int
  w : Nat
  h : Nat
  deriving Repr, DecidableEq

/-- `MainWindow._set_default_geometry`:
`self.setGeometry(QRect(50, 50, 800, 600))`. -/
def defaultGeometry : QRect := { x := 50, y := 50, w := 800, h := 600 }

/-- The geometry `MainWindow.__init__` ends with.  `stored` is the
`state_config['geometry']['mainwindow']` entry (`none` = `KeyError`);
`restoreGeom` models Qt's `restoreGeometry` on the decoded blob —
`some rect` when it returns True having applied `rect`, `none` when it
returns False.  Every failure branch calls `_set_default_geometry`. -/
def MainWindow.initGeometry (stored : Option String)
    (restoreGeom : List Nat → Option QRect) : QRect :=
  match stored with
  | none => defaultGeometry
  | some data =>
    match b64decode data with
    | none => defaultGeometry
    | some geom =>
      match restoreGeom geom with
      | some rect => rect
      | none => defaultGeometry

/-! ### `app.py` — uncaught-exception hook (`_exception_hook`) -/

/-- Observable effects of `_exception_hook`.  `benign` classifies the
exception (`bdb.BdbQuit` or not a subclass of `Exception`); `accepted`
is the crash dialog's result; `pages` the recovered page list.
`restartSpawnedPages` records the pages handed to
`restart(shutdown=False, pages=pages)` when the user accepted;
`gracefulShutdownRun` records whether `self.shutdown()` was invoked. -/
structure HookResult where
  defaultHookInvoked : Bool
  quitStatusCrash : Bool
  windowsClosed : Bool
  dialogShown : Bool
  restartSpawnedPages : Option (List String)
  gracefulShutdownRun : Bool
  messageHandlerRemoved : Bool
  crashlogDestroyed : Bool
  exitStatus : Option Nat
  deriving Repr, DecidableEq

/-- `Application._exception_hook`: for a benign exception it just
attempts `self.shutdown()`; for a genuine fault it runs the default
hook for diagnostics, marks the quit as a crash, closes all windows,
shows the crash dialog, relaunches with the recovered pages when the
user accepts, and then unconditionally removes the message handler,
destroys the crash log and calls `sys.exit(1)`. -/
def Application._exception_hook (benign : Bool) (accepted : Bool)
    (pages : List String) : HookResult :=
  if benign then
    { defaultHookInvoked := false, quitStatusCrash := true,
      windowsClosed := false, dialogShown := false,
      restartSpawnedPages := none, gracefulShutdownRun := true,
      messageHandlerRemoved := false, crashlogDestroyed := false,
      exitStatus := none }
  else
    { defaultHookInvoked := true, quitStatusCrash := false,
      windowsClosed := true, dialogShown := true,
      restartSpawnedPages := if accepted then some pages else none,
      gracefulShutdownRun := false,
      messageHandlerRemoved := true, crashlogDestroyed := true,
      exitStatus := some 1 }

/-! ### Concrete Stage-2 environments used to settle the persistence
isolation claim -/

/-- A fully populated registry where the window-geometry handler
raises an exception that is not an `AttributeError`. -/
def geomRaisesEnv : Stage2Env :=
  { configRegistered := true, autoSaveConfig := true,
    keyConfigRegistered := true, commandHistoryRegistered := true,
    stateConfigRegistered := true, cookieJarRegistered := true,
    configSave := none, keyConfigSave := none,
    saveGeometry := some .otherError, quickmarksSave := none,
    commandHistorySave := none, stateConfigSave := none,
    cookieJarSave := none }

/-- A fully populated registry where the cookie-jar handler raises an
`AttributeError` and every other handler succeeds. -/
def cookieAttrErrEnv : Stage2Env :=
  { configRegistered := true, autoSaveConfig := true,
    keyConfigRegistered := true, commandHistoryRegistered := true,
    stateConfigRegistered := true, cookieJarRegistered := true,
    configSave := none, keyConfigSave := none,
    saveGeometry := none, quickmarksSave := none,
    commandHistorySave := none, stateConfigSave := none,
    cookieJarSave := some .attributeError }

end Qutebrowser

namespace Qutebrowser

/-! ## Theorems -/

/-- Helper invariant for the shutdown latch: once account for at most
one Stage-2 execution, every further `shutdown` call keeps it so. -/
theorem shutdown_preserves_inv (status : Nat) (s : ShutdownState)
    (h : (s.shuttingDown = false → stage2Total s = 0) ∧ stage2Total s ≤ 1) :
    ((Application.shutdown status s).shuttingDown = false →
      stage2Total (Application.shutdown status s) = 0) ∧
    stage2Total (Application.shutdown status s) ≤ 1 := by
  obtain ⟨h0, h1⟩ := h
  simp only [stage2Total] at h0 h1 ⊢
  unfold Application.shutdown
  by_cases hs : s.shuttingDown
  · simp [hs]
    omega
  · simp only [Bool.not_eq_true] at hs
    have hz := h0 hs
    by_cases hp : s.prompterRegistered && s.promptActive
    · simp [hs, hp]
      omega
    · simp [hs, hp]
      omega

theorem applyShutdowns_inv (calls : List Nat) (s : ShutdownState)
    (h : (s.shuttingDown = false → stage2Total s = 0) ∧ stage2Total s ≤ 1) :
    ((applyShutdowns calls s).shuttingDown = false →
      stage2Total (applyShutdowns calls s) = 0) ∧
    stage2Total (applyShutdowns calls s) ≤ 1 := by
  induction calls generalizing s with
  | nil => simpa [applyShutdowns] using h
  | cons c cs ih =>
    have hstep := shutdown_preserves_inv c s h
    simpa [applyShutdowns, List.foldl_cons] using
      ih (Application.shutdown c s) hstep

/-- C1: shutdown is idempotent — starting from a state with the latch
clear and no Stage-2 work yet, any sequence of calls to the `shutdown`
entry point accounts for at most one Stage-2 execution (completed or
deferred); once `_shutting_down` is set, a further `shutdown` call
returns the state unchanged (nothing scheduled, nothing run); and when
a modal question prompt is active the single Stage-2 execution is
deferred to the next run-loop iteration instead of running inline. -/
theorem shutdown_single_stage2 (calls : List Nat) (s t : ShutdownState)
    (status : Nat)
    (hfresh : s.shuttingDown = false ∧ s.deferred = [] ∧ s.stage2Runs = 0)
    (hlatch : t.shuttingDown = true) :
    stage2Total (applyShutdowns calls s) ≤ 1 ∧
    Application.shutdown status t = t ∧
    (s.prompterRegistered = true → s.promptActive = true →
      (Application.shutdown status s).stage2Runs = s.stage2Runs ∧
      (Application.shutdown status s).deferred = s.deferred ++ [status]) := by
  obtain ⟨h1, h2, h3⟩ := hfresh
  refine ⟨?_, ?_, ?_⟩
  · exact (applyShutdowns_inv calls s
      ⟨fun _ => by simp [stage2Total, h2, h3],
       by simp [stage2Total, h2, h3]⟩).2
  · simp [Application.shutdown, hlatch]
  · intro hp ha
    constructor <;> simp [Application.shutdown, h1, hp, ha]

/-- Witness for C1: three `shutdown` calls on a fresh state with an
active question leave exactly one deferred Stage-2 execution, a latched
state absorbs a call, and the first call deferred rather than ran. -/
theorem shutdown_single_stage2_witness :
    stage2Total (applyShutdowns [130, 0, 0]
      { shuttingDown := false, prompterRegistered := true,
        promptActive := true, deferred := [], stage2Runs := 0 }) ≤ 1 ∧
    Application.shutdown 130
      { shuttingDown := true, prompterRegistered := false,
        promptActive := false, deferred := [], stage2Runs := 1 } =
      { shuttingDown := true, prompterRegistered := false,
        promptActive := false, deferred := [], stage2Runs := 1 } ∧
    ((Application.shutdown 130
      { shuttingDown := false, prompterRegistered := true,
        promptActive := true, deferred := [], stage2Runs := 0 }).stage2Runs = 0 ∧
     (Application.shutdown 130
      { shuttingDown := false, prompterRegistered := true,
        promptActive := true, deferred := [], stage2Runs := 0 }).deferred = [130]) := by
  have h := shutdown_single_stage2 [130, 0, 0]
    { shuttingDown := false, prompterRegistered := true,
      promptActive := true, deferred := [], stage2Runs := 0 }
    { shuttingDown := true, prompterRegistered := false,
      promptActive := false, deferred := [], stage2Runs := 1 }
    130 ⟨rfl, rfl, rfl⟩ rfl
  exact ⟨h.1, h.2.1, h.2.2 rfl rfl⟩

/-- Helper for C2: when no handler raises anything other than
`AttributeError`, the save loop attempts every handler, logs exactly
the `AttributeError` failures, and lets nothing escape. -/
theorem runSaveLoop_no_escape (l : List (String × SaveOutcome))
    (h : ∀ p ∈ l, p.2 ≠ some PyExc.otherError) :
    (runSaveLoop l).attempted = l.map Prod.fst ∧
    (runSaveLoop l).raised = none ∧
    (runSaveLoop l).loggedFailures =
      (l.filter (fun p => p.2 = some PyExc.attributeError)).map Prod.fst := by
  induction l with
  | nil => exact ⟨rfl, rfl, rfl⟩
  | cons p rest ih =>
    obtain ⟨what, outcome⟩ := p
    have hrest : ∀ q ∈ rest, q.2 ≠ some PyExc.otherError :=
      fun q hq => h q (List.mem_cons_of_mem _ hq)
    have hp := h (what, outcome) (List.mem_cons_self _ _)
    obtain ⟨ha, hr, hf⟩ := ih hrest
    match outcome with
    | none => simp [runSaveLoop, ha, hr, hf]
    | some PyExc.attributeError => simp [runSaveLoop, ha, hr, hf]
    | some PyExc.otherError => exact absurd rfl hp

/-- C2 counterexample: with every registry entry present and the
window-geometry handler raising an exception that is not an
`AttributeError`, the save loop stops there — quickmarks, command
history, state config and cookies are never attempted and the deferred
process exit is never scheduled, contradicting the claim that any one
handler's exception leaves the rest running and shutdown reaching
exit. -/
theorem stage2_persistence_not_isolated :
    (Application._shutdown 0 geomRaisesEnv).saves.attempted =
      ["config", "keyconfig", "window geometry"] ∧
    (Application._shutdown 0 geomRaisesEnv).saves.raised =
      some PyExc.otherError ∧
    (Application._shutdown 0 geomRaisesEnv).exitScheduled = none ∧
    (Application._shutdown 0 geomRaisesEnv).registryCleared = false :=
  ⟨rfl, rfl, rfl, rfl⟩

/-- C2 (amended): persistence during Stage-2 shutdown is isolated per
item for `AttributeError` failures — the only exception class the save
loop catches.  If the `config` entry is registered and no handler
raises anything other than `AttributeError`, then every handler in the
`to_save` list runs, each `AttributeError` failure is only logged, and
the shutdown sequence reaches the scheduled process exit with the
registry cleared. -/
theorem stage2_persistence_isolation (status : Nat) (e : Stage2Env)
    (hconfig : e.configRegistered = true)
    (h : ∀ p ∈ toSave e, p.2 ≠ some PyExc.otherError) :
    (Application._shutdown status e).saves.attempted =
      (toSave e).map Prod.fst ∧
    (Application._shutdown status e).saves.loggedFailures =
      ((toSave e).filter
        (fun p => p.2 = some PyExc.attributeError)).map Prod.fst ∧
    (Application._shutdown status e).exitScheduled = some status ∧
    (Application._shutdown status e).registryCleared = true := by
  obtain ⟨ha, hr, hf⟩ := runSaveLoop_no_escape (toSave e) h
  unfold Application._shutdown
  simp only [hconfig, if_true]
  rw [hr]
  exact ⟨ha, hf, rfl, rfl⟩

/-- Witness for C2 (amended): with a full registry and only the
cookie-jar handler failing (with an `AttributeError`), all seven
handlers run, the cookie failure is logged, and exit is scheduled. -/
theorem stage2_persistence_isolation_witness :
    (Application._shutdown 0 cookieAttrErrEnv).saves.attempted =
      ["config", "keyconfig", "window geometry", "quickmarks",
       "command history", "window geometry", "cookies"] ∧
    (Application._shutdown 0 cookieAttrErrEnv).saves.loggedFailures =
      ["cookies"] ∧
    (Application._shutdown 0 cookieAttrErrEnv).exitScheduled = some 0 ∧
    (Application._shutdown 0 cookieAttrErrEnv).registryCleared = true := by
  have h := stage2_persistence_isolation 0 cookieAttrErrEnv rfl (by decide)
  simpa [cookieAttrErrEnv, toSave] using h

/-- C3: signal handling escalates over three deliveries of
SIGINT/SIGTERM.  The first delivery remaps both signals to the
forceful handler and schedules a graceful shutdown with status
`128 + signum` on the next run-loop tick; a second delivery remaps
both signals to the strongest handler and schedules a forced
`QApplication.exit(128 + signum)` (no shutdown routine, hence no
persistence); a third delivery calls `sys.exit(128 + signum)`
immediately, scheduling nothing; and `128 + SIGINT = 130`. -/
theorem signal_escalation (n1 n2 n3 : Nat)
    (h1 : n1 = SIGINT ∨ n1 = SIGTERM)
    (h2 : n2 = SIGINT ∨ n2 = SIGTERM)
    (h3 : n3 = SIGINT ∨ n3 = SIGTERM) :
    deliverSignal n1 initSigState =
      { sigint := .forcefully, sigterm := .forcefully,
        scheduled := [.gracefulShutdown (128 + n1)], exited := none } ∧
    deliverSignal n2 (deliverSignal n1 initSigState) =
      { sigint := .reallyForcefully, sigterm := .reallyForcefully,
        scheduled := [.gracefulShutdown (128 + n1), .forcedExit (128 + n2)],
        exited := none } ∧
    deliverSignal n3 (deliverSignal n2 (deliverSignal n1 initSigState)) =
      { sigint := .reallyForcefully, sigterm := .reallyForcefully,
        scheduled := [.gracefulShutdown (128 + n1), .forcedExit (128 + n2)],
        exited := some (128 + n3) } ∧
    128 + SIGINT = 130 := by
  rcases h1 with rfl | rfl <;> rcases h2 with rfl | rfl <;>
    rcases h3 with rfl | rfl <;> exact ⟨rfl, rfl, rfl, rfl⟩

/-- Witness for C3: three SIGINT deliveries — graceful shutdown with
130 scheduled, then forced exit with 130 scheduled, then immediate
`sys.exit(130)`. -/
theorem signal_escalation_witness :
    deliverSignal SIGINT (deliverSignal SIGINT
        (deliverSignal SIGINT initSigState)) =
      { sigint := .reallyForcefully, sigterm := .reallyForcefully,
        scheduled := [.gracefulShutdown 130, .forcedExit 130],
        exited := some 130 } :=
  (signal_escalation SIGINT SIGINT SIGINT (Or.inl rfl) (Or.inl rfl)
    (Or.inl rfl)).2.2.1

/-- C4: crash-marker startup transitions.  Marker absent → a fresh
empty marker is created and fault capture is enabled against it;
marker present and empty → the file is left exactly as it is, no
crash-log handle is opened, fault capture to that path stays disabled
and only a warning is logged; marker present with content (and
removable) → the content is read, the file deleted, a fresh marker
created with fault capture enabled, and a crash dialog built from the
content is shown. -/
theorem crash_marker_transitions (marker : Option String)
    (removeOk : Bool) :
    (marker = none →
      Application._handle_segfault marker removeOk =
        { marker := some "", crashlogOpen := true,
          faultCaptureEnabled := true, crashdlg := none,
          events := [.created] }) ∧
    (marker = some "" →
      Application._handle_segfault marker removeOk =
        { marker := some "", crashlogOpen := false,
          faultCaptureEnabled := false, crashdlg := none,
          events := [.warned] }) ∧
    (∀ d, marker = some d → d ≠ "" → removeOk = true →
      Application._handle_segfault marker removeOk =
        { marker := some "", crashlogOpen := true,
          faultCaptureEnabled := true, crashdlg := some d,
          events := [.removed, .created, .dialogShown d] }) := by
  refine ⟨?_, ?_, ?_⟩
  · rintro rfl; rfl
  · rintro rfl; rfl
  · rintro d rfl hd rfl
    simp [Application._handle_segfault, hd]

/-- Witness for C4: a marker holding fault text "boom" is read,
removed, replaced by a fresh capture-enabled marker, and a dialog
showing "boom" appears. -/
theorem crash_marker_transitions_witness :
    Application._handle_segfault (some "boom") true =
      { marker := some "", crashlogOpen := true,
        faultCaptureEnabled := true, crashdlg := some "boom",
        events := [.removed, .created, .dialogShown "boom"] } :=
  (crash_marker_transitions (some "boom") true).2.2 "boom" rfl
    (by decide) rfl

/-- C5: restart command construction.  In each of the three launch
modes the relaunch vector is the re-derived launch vector, followed by
exactly the original arguments after `argv[0]` that begin with `-`,
followed by the recovered page URLs, and the child's working directory
is the original one (launcher script) or the packaging-inferred one;
for a frozen executable `prog` launched as `["prog", "--debug"]` with
pages `["https://x", "https://y"]` the relaunch command is
`["prog", "--debug", "https://x", "https://y"]`. -/
theorem restart_command (env : LaunchEnv) (pages : List String) :
    (basename env.argv0 = "qutebrowser" →
      Application.restart_cmd env pages =
        (env.argv0 :: (env.argvRest.filter startsWithDash ++ pages),
         Cwd.original)) ∧
    (basename env.argv0 ≠ "qutebrowser" → env.frozen = true →
      Application.restart_cmd env pages =
        (env.executable :: (env.argvRest.filter startsWithDash ++ pages),
         Cwd.executableDir)) ∧
    (basename env.argv0 ≠ "qutebrowser" → env.frozen = false →
      Application.restart_cmd env pages =
        (env.executable :: "-m" :: "qutebrowser" ::
          (env.argvRest.filter startsWithDash ++ pages),
         Cwd.packageParent)) ∧
    Application.restart_cmd
      { argv0 := "prog", argvRest := ["--debug"],
        executable := "prog", frozen := true }
      ["https://x", "https://y"] =
      (["prog", "--debug", "https://x", "https://y"],
       Cwd.executableDir) := by
  refine ⟨?_, ?_, ?_, by decide⟩
  · intro h; simp [Application.restart_cmd, h]
  · intro h hf; simp [Application.restart_cmd, h, hf]
  · intro h hf; simp [Application.restart_cmd, h, hf]

/-- Witness for C5: a launcher-script launch
`["qutebrowser", "--debug", "foo"]` with one page relaunches as
`["qutebrowser", "--debug", "https://x"]` in the original working
directory (the non-flag argument `foo` is dropped). -/
theorem restart_command_witness :
    Application.restart_cmd
      { argv0 := "qutebrowser", argvRest := ["--debug", "foo"],
        executable := "/usr/bin/python3", frozen := false }
      ["https://x"] =
      (["qutebrowser", "--debug", "https://x"], Cwd.original) := by
  have h := (restart_command
    { argv0 := "qutebrowser", argvRest := ["--debug", "foo"],
      executable := "/usr/bin/python3", frozen := false }
    ["https://x"]).1 (by decide)
  simpa using h

/-- C6: for every registry state and every parentless index,
`DownloadModel.rowCount` returns the length of the download manager's
`downloads` list, and returns 0 (without failing) when the
`download-manager` key is not yet registered. -/
theorem downloadmodel_rowCount (registry : Option DownloadManager)
    (parent : QModelIndex) (hparent : parent.parentValid = false) :
    (∀ m, registry = some m →
      DownloadModel.rowCount registry parent = m.downloads.length) ∧
    (registry = none → DownloadModel.rowCount registry parent = 0) := by
  constructor
  · rintro m rfl; simp [DownloadModel.rowCount, hparent]
  · rintro rfl; simp [DownloadModel.rowCount, hparent]

/-- Witness for C6: with two downloads in the backing list the row
count is 2, and with the manager unregistered it is 0. -/
theorem downloadmodel_rowCount_witness :
    DownloadModel.rowCount
      (some { downloads := [{ display := "a" }, { display := "b" }] })
      { parentValid := false, row := 0, column := 0 } = 2 ∧
    DownloadModel.rowCount none
      { parentValid := false, row := 0, column := 0 } = 0 := by
  constructor
  · exact (downloadmodel_rowCount
      (some { downloads := [{ display := "a" }, { display := "b" }] })
      { parentValid := false, row := 0, column := 0 } rfl).1 _ rfl
  · exact (downloadmodel_rowCount none
      { parentValid := false, row := 0, column := 0 } rfl).2 rfl

/-- C7: `MainWindow` construction always ends with a defined geometry
— either the restored one or the fixed default — and every failure
path (stored entry absent, not valid base64, or `restoreGeometry`
returning False) falls back to the default rectangle
`(50, 50, 800, 600)`; no decode failure escapes, as `initGeometry` is
total. -/
theorem mainwindow_geometry (stored : Option String)
    (restoreGeom : List Nat → Option QRect) :
    (MainWindow.initGeometry stored restoreGeom = defaultGeometry ∨
      ∃ d g, stored = some d ∧ b64decode d = some g ∧
        restoreGeom g = some (MainWindow.initGeometry stored restoreGeom)) ∧
    (stored = none →
      MainWindow.initGeometry stored restoreGeom = defaultGeometry) ∧
    (∀ d, stored = some d → b64decode d = none →
      MainWindow.initGeometry stored restoreGeom = defaultGeometry) ∧
    (∀ d g, stored = some d → b64decode d = some g → restoreGeom g = none →
      MainWindow.initGeometry stored restoreGeom = defaultGeometry) ∧
    defaultGeometry = { x := 50, y := 50, w := 800, h := 600 } := by
  refine ⟨?_, ?_, ?_, ?_, rfl⟩
  · match hs : stored with
    | none => exact Or.inl rfl
    | some d =>
      match hb : b64decode d with
      | none => exact Or.inl (by simp [MainWindow.initGeometry, hb])
      | some g =>
        match hr : restoreGeom g with
        | none => exact Or.inl (by simp [MainWindow.initGeometry, hb, hr])
        | some rect =>
          refine Or.inr ⟨d, g, rfl, hb, ?_⟩
          simp [MainWindow.initGeometry, hb, hr]
  · rintro rfl; rfl
  · rintro d rfl hb; simp [MainWindow.initGeometry, hb]
  · rintro d g rfl hb hr; simp [MainWindow.initGeometry, hb, hr]

/-- Witness for C7: a stored entry that is not valid base64 yields the
default rectangle, and an absent entry does too. -/
theorem mainwindow_geometry_witness :
    MainWindow.initGeometry (some "%%%") (fun _ => none) =
      { x := 50, y := 50, w := 800, h := 600 } ∧
    MainWindow.initGeometry none (fun _ => none) =
      { x := 50, y := 50, w := 800, h := 600 } := by
  constructor
  · have h := mainwindow_geometry (some "%%%") (fun _ => none)
    exact (h.2.2.1 "%%%" rfl (by decide)).trans h.2.2.2.2
  · have h := mainwindow_geometry none (fun _ => none)
    exact (h.2.1 rfl).trans h.2.2.2.2

/-- C8 counterexample: in the genuine-fault branch with the user
*accepting* the crash-dialog restore, the hook still calls
`sys.exit(1)` after spawning the relaunch — so exit status 1 is not
produced exclusively in the declined branch as the claim states. -/
theorem exception_hook_exit_on_accept :
    (Application._exception_hook false true ["https://x"]).restartSpawnedPages =
      some ["https://x"] ∧
    (Application._exception_hook false true ["https://x"]).exitStatus =
      some 1 :=
  ⟨rfl, rfl⟩

/-- C8 (amended): in the uncaught-exception hook for a genuine fault,
*both* dialog outcomes end with `sys.exit(1)` after the minimal forced
cleanup (message handler removed, crash marker destroyed); when the
user accepts, the process additionally relaunches carrying the
recovered pages, and in neither outcome is the rest of graceful
shutdown run. -/
theorem exception_hook_terminal (accepted : Bool) (pages : List String) :
    (Application._exception_hook false accepted pages).exitStatus = some 1 ∧
    (Application._exception_hook false accepted pages).messageHandlerRemoved
      = true ∧
    (Application._exception_hook false accepted pages).crashlogDestroyed
      = true ∧
    (Application._exception_hook false accepted pages).gracefulShutdownRun
      = false ∧
    (Application._exception_hook false accepted pages).restartSpawnedPages
      = (if accepted then some pages else none) := by
  exact ⟨rfl, rfl, rfl, rfl, rfl⟩

/-- C9: when no crash-log handle was opened (`_crashlogfile is None`,
the Stale-Ignore startup branch), `_destroy_crashlogfile` leaves the
entire state untouched — in particular the marker file held by another
instance stays on disk and the faulthandler target is unchanged — and
the Stale-Ignore branch of `_handle_segfault` indeed opens no
handle. -/
theorem destroy_crashlogfile_noop (s : CrashlogState) (removeOk : Bool)
    (h : s.crashlogfile = none) :
    Application._destroy_crashlogfile s = s ∧
    (Application._handle_segfault (some "") removeOk).crashlogOpen = false := by
  constructor
  · simp [Application._destroy_crashlogfile, h]
  · rfl

/-- Witness for C9: with no handle open, a state whose disk still
holds `crash.log` is returned identically. -/
theorem destroy_crashlogfile_noop_witness :
    Application._destroy_crashlogfile
      { crashlogfile := none, diskFiles := ["crash.log"],
        faultTarget := .file "crash.log", stderrAvailable := true,
        removeOk := true } =
      { crashlogfile := none, diskFiles := ["crash.log"],
        faultTarget := .file "crash.log", stderrAvailable := true,
        removeOk := true } ∧
    (Application._handle_segfault (some "") true).crashlogOpen = false :=
  destroy_crashlogfile_noop
    { crashlogfile := none, diskFiles := ["crash.log"],
      faultTarget := .file "crash.log", stderrAvailable := true,
      removeOk := true } true rfl

/-- C10: for every index, `DownloadModel.flags` returns exactly
`Qt.ItemIsEnabled`, whose bitmask contains neither
`Qt.ItemIsSelectable` nor `Qt.ItemIsEditable` — no download row is
selectable or editable. -/
theorem downloadmodel_flags (index : QModelIndex) :
    DownloadModel.flags index = QtItemIsEnabled ∧
    DownloadModel.flags index &&& QtItemIsSelectable = 0 ∧
    DownloadModel.flags index &&& QtItemIsEditable = 0 :=
  ⟨rfl, by simp only [DownloadModel.flags]; decide,
    by simp only [DownloadModel.flags]; decide⟩

end Qutebrowser
